import Mathlib

/-!
Shallow embedding of the chat-session orchestration layer of
`streamlit_app.py`: host reachability checking (`check_ollama_host`),
model listing (`list_models`), model preselection in the sidebar,
the bounded history window sent with a request, error classification on
chat submission, and streamed-response accumulation, together with
theorems settling the specification's claims about them.

External effects (the HTTP library, the Ollama client, the Streamlit
display surface) are modelled by explicit outcome values passed in;
everything the Python code computes from those outcomes is translated
directly.
-/

/-- Python substring test `needle in hay` on strings. -/
def strContains (hay needle : String) : Bool := decide (needle.data <:+: hay.data)

/-- Python `str.lower()` (ASCII case folding, as the app uses it). -/
def pyLower (s : String) : String := ⟨s.data.map Char.toLower⟩

/-- Python `str.strip()` (whitespace removed at both ends). -/
def pyStrip (s : String) : String :=
  ⟨((s.data.dropWhile Char.isWhitespace).reverse.dropWhile Char.isWhitespace).reverse⟩

/-- One conversation entry, a dict `{'role': ..., 'content': ...}` in the source. -/
structure Message where
  role : String
  content : String
  deriving DecidableEq, Repr

/-- Outcome of `requests.get(host, timeout=timeout)` inside
`check_ollama_host`: either a response arrives (carrying a status code), or
one of the exception classes the source handles is raised. -/
inductive GetOutcome where
  | resp (status : Nat)
  | connError
  | invalidURL
  | timeout
  | otherError (msg : String)
  deriving DecidableEq, Repr

/-- Translation of `check_ollama_host` (streamlit_app.py lines 23-40): a GET
to the host root; a received response of any status yields `(True, ...)`, and
each handled exception yields `(False, ...)` with its own message. -/
def check_ollama_host (out : GetOutcome) : Bool × String :=
  match out with
  | .resp status => (true, "Reachable: HTTP " ++ toString status)
  | .connError => (false, "Connection refused — is Ollama running? Try `ollama serve`")
  | .invalidURL => (false, "Invalid host URL. Make sure it starts with http:// or https://")
  | .timeout => (false, "Connection timed out — check network and host/port")
  | .otherError e => (false, "Error: " ++ e)

/-- JSON values, as produced by `resp.json()`. -/
inductive JVal where
  | null
  | bool (b : Bool)
  | num (n : Int)
  | str (s : String)
  | arr (elems : List JVal)
  | obj (fields : List (String × JVal))

/-- Python `'s' == v` between a string literal and an arbitrary value:
true exactly on an equal string, false (no exception) on any other type. -/
def pyEqStr (s : String) : JVal → Bool
  | .str t => s == t
  | _ => false

/-- One step of the comprehension `[m.get('id') for m in ... if 'id' in m]`
at entry `m`. `none` means the step raises (caught by the enclosing
`except`); `some none` means the filter `'id' in m` rejects `m`; and
`some (some v)` means `m` passes with `m.get('id') = v`. For a dict, `in`
tests keys; for a string, `in` is a substring test and `.get` then raises;
for a list, `in` tests membership and `.get` then raises; for any other
type, `in` itself raises `TypeError`. -/
def compStep : JVal → Option (Option JVal)
  | .obj fields =>
    match fields.lookup "id" with
    | some v => some (some v)
    | none => some none
  | .str s => if strContains s "id" then none else some none
  | .arr xs => if xs.any (pyEqStr "id") then none else some none
  | _ => none

/-- The whole comprehension over the entries; `none` when some step raises. -/
def runComp : List JVal → Option (List JVal)
  | [] => some []
  | m :: ms =>
    match compStep m with
    | none => none
    | some none => runComp ms
    | some (some v) => (runComp ms).map (v :: ·)

/-- Iterating `data.get('data', [])`: a missing key defaults to `[]`; a JSON
array iterates its elements; a string iterates its characters; an object
iterates its keys; `null` and numbers are not iterable, so the `for` raises
(`none`). -/
def dataIter : Option JVal → Option (List JVal)
  | none => some []
  | some (.arr xs) => some xs
  | some (.str s) => some (s.data.map fun c => JVal.str (String.mk [c]))
  | some (.obj fields) => some (fields.map fun p => JVal.str p.1)
  | some _ => none

/-- An HTTP response as `list_models` sees it: the status code, and the
result of `resp.json()` — `none` when the body is malformed JSON (so that
`.json()` raises). -/
structure HttpResp where
  status : Nat
  jsonBody : Option JVal

/-- Outcome of the `requests.get(.../v1/models, ...)` call. -/
inductive FetchOutcome where
  | raises
  | ok (resp : HttpResp)

/-- Translation of `list_models` (streamlit_app.py lines 43-53): every
exception anywhere in the body is caught and turned into `[]`. The status
code of a received response is never consulted. -/
def list_models (out : FetchOutcome) : List JVal :=
  match out with
  | .raises => []
  | .ok resp =>
    match resp.jsonBody with
    | none => []
    | some (.obj fields) =>
      match dataIter (fields.lookup "data") with
      | none => []
      | some entries => (runComp entries).getD []
    | some _ => []

/-- Extractor used to state what `list_models` returns on a well-formed
body: the `id` value of an object entry that has one. -/
def idOf : JVal → Option JVal
  | .obj fields => fields.lookup "id"
  | _ => none

/-- Boolean test that a JSON value is an object. -/
def isObjB : JVal → Bool
  | .obj _ => true
  | _ => false

/-- Translation of the sidebar preselection index (streamlit_app.py lines
63-68): `preferred_index = 0`, overridden by
`available_models.index('gemma3:1b')` when that identifier is present. -/
def preferred_index (available : List JVal) : Nat :=
  if available.any (pyEqStr "gemma3:1b") then
    available.findIdx (pyEqStr "gemma3:1b")
  else 0

/-- The model identifier initially selected by the sidebar (lines 63-70):
with a non-empty catalog, the selectbox starts at `preferred_index`; with an
empty catalog, a text input holds the hardcoded default `"gemma3:1b"`. -/
def preselect (available : List JVal) : JVal :=
  if available.isEmpty then .str "gemma3:1b"
  else available.getD (preferred_index available) (.str "gemma3:1b")

/-- Python slice `messages[-n:]` as used for `messages_to_send`
(streamlit_app.py line 166). For `n = 0` the slice `[-0:]` is `[0:]`, the
whole list; otherwise it is the last `n` elements (all of them when the
list is shorter). -/
def pySliceLastN (msgs : List Message) (n : Nat) : List Message :=
  if n = 0 then msgs else msgs.drop (msgs.length - n)

/-- Value sitting under a `content` key or attribute of a fragment's
message: absent is modelled by `Option`, and a present value is either
`None` or a string. -/
inductive ContentVal where
  | null
  | str (s : String)
  deriving DecidableEq, Repr

/-- Value of the `"message"` key of a dict-shaped chunk: a nested dict with
an optional `content` entry, or a non-dict value (including `None`), on
which `.get` raises `AttributeError`. -/
inductive DictMsgVal where
  | dict (content : Option ContentVal)
  | nonDict
  deriving DecidableEq, Repr

/-- The `message` attribute of an object-shaped chunk, with an optional
`content` attribute (absent defaults to `""` under `getattr`). -/
structure ObjMsgVal where
  content : Option ContentVal
  deriving DecidableEq, Repr

/-- One streamed chunk as the accumulation loop sees it: a dict (possibly
without a `"message"` key) or a non-dict object (possibly without a
`message` attribute; an attribute equal to `None` behaves identically to an
absent one and is modelled by `none` too). -/
inductive Frag where
  | dict (message : Option DictMsgVal)
  | obj (message : Option ObjMsgVal)
  deriving DecidableEq, Repr

/-- Value of `content_piece` after the extraction block of the loop body
(streamlit_app.py lines 206-217), just before `assistant_text +=
content_piece`. `some s` means the piece is the string `s`; `none` means
`content_piece` is `None` — which the `try/except` does not convert,
because assigning `None` raises nothing — so the `+=` on line 219 raises
`TypeError`. -/
def extractPiece : Frag → Option String
  | .dict none => some ""
  | .dict (some (.dict none)) => some ""
  | .dict (some (.dict (some .null))) => none
  | .dict (some (.dict (some (.str s)))) => some s
  | .dict (some .nonDict) => some ""
  | .obj none => none
  | .obj (some m) =>
    match m.content with
    | none => some ""
    | some .null => none
    | some (.str s) => some s

/-- The accumulation loop (streamlit_app.py lines 204-220) starting from
buffer `buf`: returns the list of buffer snapshots passed to
`response_placeholder.markdown`, one per completed iteration, paired with
`some finalBuffer` on normal termination or `none` when an iteration
raises `TypeError` on `assistant_text += None`. -/
def consumeStream : List Frag → String → List String × Option String
  | [], buf => ([], some buf)
  | f :: fs, buf =>
    match extractPiece f with
    | none => ([], none)
    | some piece =>
      let buf2 := buf ++ piece
      let rest := consumeStream fs buf2
      (buf2 :: rest.1, rest.2)

/-- Cumulative concatenation snapshots of a list of pieces on top of an
initial buffer: the expected argument sequence of the live-view update. -/
def cumSnapshots (buf : String) : List String → List String
  | [] => []
  | p :: ps => (buf ++ p) :: cumSnapshots (buf ++ p) ps

/-- Concatenation of a list of pieces in order. -/
def concatPieces (ps : List String) : String := ps.foldl (· ++ ·) ""

/-- The error banner (or banners) produced by one send action, classified
the way the source branches (streamlit_app.py lines 171, 175, 183-198). In
the resource and generic cases the raw diagnostic text is carried along:
the resource branch also prints `(raw error: ...)` and the generic branch
reports the text verbatim. -/
inductive Shown where
  | hostCheckFailed (diag : String)
  | clientFailed
  | resourceError (raw : String)
  | genericError (raw : String)
  deriving DecidableEq, Repr

/-- The classification applied to a chat-submission exception's text
(streamlit_app.py line 183): the first branch fires on the raw,
case-sensitive substring `'requires more system memory'`, or on
`'out of memory'` or `'memory'` in the lowercased text. -/
def classify_error (e : String) : Shown :=
  if strContains e "requires more system memory"
      || strContains (pyLower e) "out of memory"
      || strContains (pyLower e) "memory" then
    .resourceError e
  else
    .genericError e

/-- Outcome of `client.chat(model=model, messages=..., stream=True)`:
either the call raises with the given text, or it returns a finite
fragment stream. -/
inductive ChatOutcome where
  | raises (errText : String)
  | stream (frags : List Frag)

/-- The plan-request prompt template (streamlit_app.py lines 151-157);
`known_problems or 'None'` substitutes `'None'` for an empty string. -/
def plan_request (user_age : Nat) (known_problems : String)
    (time_for_exercise : Nat) (fitness_goal : String) : String :=
  "Create a 7-day weekly exercise plan for a " ++ toString user_age ++ "-year-old. "
    ++ "Known health problems: "
    ++ (if known_problems = "" then "None" else known_problems) ++ ". "
    ++ "Available time per session: " ++ toString time_for_exercise ++ " minutes. "
    ++ "Fitness goal: " ++ fitness_goal ++ ". "
    ++ "Provide a daily breakdown (day name, exercise type, sets/reps or duration, intensity), safety notes, and a short warm-up and cool-down. Be concise and use bullet points."

/-- Result of one send action: the conversation after the action, the error
banner if one was shown, the live-view snapshots, the request actually
issued to the chat endpoint (`none` when no request was sent), and whether
the script run aborted with an uncaught exception. -/
structure SendResult where
  messages : List Message
  shown : Option Shown
  updates : List String
  requestMessages : Option (List Message)
  raised : Bool
  deriving Repr

/-- Translation of the `if send:` handler (streamlit_app.py lines 149-226).
Inputs fix the form fields, the host-probe outcome, whether `safe_client`
produced a client, and the chat-call outcome; `messages` is the session
conversation before the action. -/
def send_handler (system_prompt : String) (user_age : Nat)
    (known_problems : String) (time_for_exercise : Nat) (fitness_goal : String)
    (max_history : Nat) (hostOut : GetOutcome) (clientOk : Bool)
    (chatOut : ChatOutcome) (messages : List Message) : SendResult :=
  let planReq := plan_request user_age known_problems time_for_exercise fitness_goal
  let msgs1 :=
    if pyStrip system_prompt ≠ "" then
      messages ++ [⟨"system", pyStrip system_prompt⟩]
    else messages
  let msgs2 := msgs1 ++ [⟨"user", planReq⟩]
  let messages_to_send := pySliceLastN msgs2 max_history
  let checkRes := check_ollama_host hostOut
  if checkRes.1 = false then
    ⟨msgs2, some (.hostCheckFailed checkRes.2), [], none, false⟩
  else if clientOk = false then
    ⟨msgs2, some .clientFailed, [], none, false⟩
  else
    match chatOut with
    | .raises errText =>
      ⟨msgs2, some (classify_error errText), [], some messages_to_send, false⟩
    | .stream frags =>
      match consumeStream frags "" with
      | (upds, some finalText) =>
        ⟨msgs2 ++ [⟨"assistant", finalText⟩], none, upds, some messages_to_send, false⟩
      | (upds, none) =>
        ⟨msgs2, none, upds, some messages_to_send, true⟩

theorem strContains_iff {hay needle : String} :
    strContains hay needle = true ↔ needle.data <:+: hay.data := by
  simp [strContains]

theorem data_pyLower (s : String) : (pyLower s).data = s.data.map Char.toLower := rfl

theorem strContains_lower_of_strContains {e n m : String}
    (hmn : m.data <:+: n.data) (hml : m.data.map Char.toLower = m.data)
    (h : strContains e n = true) : strContains (pyLower e) m = true := by
  rw [strContains_iff] at h ⊢
  have h2 : m.data.map Char.toLower <:+: e.data.map Char.toLower :=
    (hmn.trans h).map Char.toLower
  rw [hml] at h2
  rw [data_pyLower]
  exact h2

theorem string_append_ne {p m q : String}
    (h : q.data.take p.data.length ≠ p.data) : p ++ m ≠ q := by
  intro he
  apply h
  have hd : p.data ++ m.data = q.data := by
    rw [← String.data_append]
    exact congrArg String.data he
  rw [← hd, List.take_left]

theorem pyEqStr_eq {s : String} {v : JVal} (h : pyEqStr s v = true) : v = .str s := by
  cases v <;> simp [pyEqStr] at h
  rw [h]

/-- C8: `check_ollama_host` is a total function — it always returns an
`(ok, diagnostic)` pair and never raises (each exception class the GET can
raise is handled) — and it maps the four failure modes (connection refused,
malformed host URL, timeout, generic failure) to four pairwise distinct
user-actionable diagnostics. -/
theorem check_host_failure_modes_distinct :
    check_ollama_host .connError
        = (false, "Connection refused — is Ollama running? Try `ollama serve`") ∧
    check_ollama_host .invalidURL
        = (false, "Invalid host URL. Make sure it starts with http:// or https://") ∧
    check_ollama_host .timeout
        = (false, "Connection timed out — check network and host/port") ∧
    (∀ m : String, check_ollama_host (.otherError m) = (false, "Error: " ++ m)) ∧
    ("Connection refused — is Ollama running? Try `ollama serve`" : String)
        ≠ "Invalid host URL. Make sure it starts with http:// or https://" ∧
    ("Connection refused — is Ollama running? Try `ollama serve`" : String)
        ≠ "Connection timed out — check network and host/port" ∧
    ("Invalid host URL. Make sure it starts with http:// or https://" : String)
        ≠ "Connection timed out — check network and host/port" ∧
    (∀ m : String,
      "Error: " ++ m ≠ "Connection refused — is Ollama running? Try `ollama serve`") ∧
    (∀ m : String,
      "Error: " ++ m ≠ "Invalid host URL. Make sure it starts with http:// or https://") ∧
    (∀ m : String,
      "Error: " ++ m ≠ "Connection timed out — check network and host/port") := by
  refine ⟨rfl, rfl, rfl, fun m => rfl, by decide, by decide, by decide,
    fun m => string_append_ne (by decide),
    fun m => string_append_ne (by decide),
    fun m => string_append_ne (by decide)⟩

/-- C10: whenever an HTTP response is actually received — any status code,
4xx and 5xx included — `check_ollama_host` returns `ok = true` with a
diagnostic reporting that status; reachability is judged solely by the
completion of the HTTP exchange. -/
theorem check_host_any_status_reachable (status : Nat) :
    check_ollama_host (.resp status) = (true, "Reachable: HTTP " ++ toString status) := rfl

/-- Counterexample to C3 as stated: `list_models` never inspects the HTTP
status code, so a non-200 (here 500) response whose body is well-formed
JSON with a populated `data` array yields a non-empty list. -/
theorem list_models_nonok_status_counterexample :
    list_models (.ok ⟨500, some (.obj [("data", .arr [.obj [("id", .str "m1")]])])⟩)
        = [.str "m1"] ∧
    ([JVal.str "m1"] : List JVal) ≠ [] := ⟨rfl, by simp⟩

/-- C3 as amended: `list_models` never raises (it is total), returns `[]`
when the listing call itself raises and when the response body is malformed
JSON; the HTTP status code is ignored entirely, so two responses with the
same body and different statuses give identical results. -/
theorem list_models_failure_behaviour (st st2 : Nat) (body : Option JVal) :
    list_models .raises = [] ∧
    list_models (.ok ⟨st, none⟩) = [] ∧
    list_models (.ok ⟨st, body⟩) = list_models (.ok ⟨st2, body⟩) := by
  refine ⟨rfl, rfl, ?_⟩
  cases body with
  | none => rfl
  | some j => cases j <;> rfl

/-- C5: for any conversation and window size `n ≥ 1`, the slice
`messages[-n:]` is exactly the last `min n length` messages — a suffix of
the conversation, hence in original order. The embedding is a pure
function of the message list, so computing the window cannot mutate the
store. -/
theorem tail_window_spec (msgs : List Message) (n : Nat) (h : 1 ≤ n) :
    pySliceLastN msgs n = msgs.drop (msgs.length - n) ∧
    (pySliceLastN msgs n).length = min n msgs.length ∧
    pySliceLastN msgs n <:+ msgs := by
  have hn : ¬ n = 0 := by omega
  unfold pySliceLastN
  rw [if_neg hn]
  refine ⟨rfl, ?_, List.drop_suffix _ _⟩
  rw [List.length_drop]
  omega

theorem tail_window_spec_witness :
    1 ≤ 2 ∧
    pySliceLastN [⟨"user", "a"⟩, ⟨"assistant", "b"⟩, ⟨"user", "c"⟩] 2
        = [⟨"assistant", "b"⟩, ⟨"user", "c"⟩] := by
  have h := tail_window_spec [⟨"user", "a"⟩, ⟨"assistant", "b"⟩, ⟨"user", "c"⟩] 2 (by decide)
  exact ⟨by decide, by rw [h.1]; rfl⟩

/-- C7: preselection picks the preferred identifier `gemma3:1b` whenever it
occurs in a non-empty catalog, otherwise the first catalog entry; on an
empty catalog the hardcoded default `gemma3:1b` is used. -/
theorem preselect_policy (available : List JVal) :
    (available = [] → preselect available = .str "gemma3:1b") ∧
    (available.any (pyEqStr "gemma3:1b") = true →
      preselect available = .str "gemma3:1b") ∧
    (∀ a as, available = a :: as → available.any (pyEqStr "gemma3:1b") = false →
      preselect available = a) := by
  refine ⟨fun he => by rw [he]; rfl, fun hany => ?_, fun a as he hnone => ?_⟩
  · have hex : ∃ x ∈ available, pyEqStr "gemma3:1b" x := List.any_eq_true.mp hany
    have hlt : available.findIdx (pyEqStr "gemma3:1b") < available.length :=
      List.findIdx_lt_length_of_exists hex
    have hne : ¬ available.isEmpty = true := by
      cases available with
      | nil => simp at hlt
      | cons x xs => simp [List.isEmpty]
    have hp : pyEqStr "gemma3:1b" available[available.findIdx (pyEqStr "gemma3:1b")]
        = true := List.findIdx_getElem
    unfold preselect preferred_index
    rw [if_neg hne, if_pos hany]
    rw [List.getD_eq_getElem?_getD, List.getElem?_eq_getElem hlt]
    exact pyEqStr_eq hp
  · unfold preselect preferred_index
    subst he
    rw [if_neg (by simp [List.isEmpty]), if_neg (by rw [hnone]; simp)]
    rfl

theorem preselect_policy_witness :
    preselect [] = .str "gemma3:1b" ∧
    preselect [.str "A", .str "gemma3:1b", .str "B"] = .str "gemma3:1b" ∧
    preselect [.str "A", .str "B"] = .str "A" :=
  ⟨(preselect_policy []).1 rfl,
   (preselect_policy [.str "A", .str "gemma3:1b", .str "B"]).2.1 (by rfl),
   (preselect_policy [.str "A", .str "B"]).2.2 (.str "A") [.str "B"] rfl (by rfl)⟩

theorem runComp_of_objs (entries : List JVal)
    (hobj : ∀ m ∈ entries, isObjB m = true) :
    runComp entries = some (entries.filterMap idOf) := by
  induction entries with
  | nil => rfl
  | cons m ms ih =>
    have hm : isObjB m = true := hobj m (by simp)
    have hms : ∀ x ∈ ms, isObjB x = true := fun x hx => hobj x (by simp [hx])
    cases m with
    | obj f =>
      cases hid : f.lookup "id" with
      | none => simp [runComp, compStep, hid, ih hms, List.filterMap_cons, idOf]
      | some v => simp [runComp, compStep, hid, ih hms, List.filterMap_cons, idOf]
    | null => simp [isObjB] at hm
    | bool b => simp [isObjB] at hm
    | num n => simp [isObjB] at hm
    | str s => simp [isObjB] at hm
    | arr xs => simp [isObjB] at hm

/-- C9: on a well-formed listing body — a JSON object whose `data` entry is
an array of objects — `list_models` returns exactly the `id` values of the
entries that have one, in array order, silently skipping entries without an
`id`; and a body whose object has no `data` entry yields `[]`. -/
theorem list_models_wellformed (st : Nat) (fields : List (String × JVal))
    (entries : List JVal)
    (hdata : fields.lookup "data" = some (.arr entries))
    (hobj : ∀ m ∈ entries, isObjB m = true) :
    list_models (.ok ⟨st, some (.obj fields)⟩) = entries.filterMap idOf ∧
    (∀ fields2 : List (String × JVal), fields2.lookup "data" = none →
      list_models (.ok ⟨st, some (.obj fields2)⟩) = []) := by
  constructor
  · show (match dataIter (fields.lookup "data") with
      | none => []
      | some es => (runComp es).getD []) = entries.filterMap idOf
    rw [hdata]
    show (runComp entries).getD [] = entries.filterMap idOf
    rw [runComp_of_objs entries hobj]
    rfl
  · intro fields2 h2
    show (match dataIter (fields2.lookup "data") with
      | none => []
      | some es => (runComp es).getD []) = []
    rw [h2]
    rfl

theorem list_models_wellformed_witness :
    list_models (.ok ⟨200, some (.obj
        [("object", .str "list"),
         ("data", .arr [.obj [("id", .str "a")],
                        .obj [("created", .num 1)],
                        .obj [("id", .str "b")]])])⟩)
      = [.str "a", .str "b"] ∧
    list_models (.ok ⟨200, some (.obj [("object", .str "x")])⟩) = [] := by
  have h := list_models_wellformed 200
    [("object", .str "list"),
     ("data", .arr [.obj [("id", .str "a")],
                    .obj [("created", .num 1)],
                    .obj [("id", .str "b")]])]
    [.obj [("id", .str "a")], .obj [("created", .num 1)], .obj [("id", .str "b")]]
    rfl (by decide)
  exact ⟨h.1.trans rfl, h.2 [("object", .str "x")] rfl⟩

theorem classify_error_eq_claim_condition (e : String) :
    classify_error e =
      (if strContains (pyLower e) "memory" || strContains (pyLower e) "out of memory"
       then Shown.resourceError e else Shown.genericError e) := by
  unfold classify_error
  cases hreq : strContains e "requires more system memory" with
  | false =>
    cases h1 : strContains (pyLower e) "out of memory" <;>
      cases h2 : strContains (pyLower e) "memory" <;> simp [h1, h2]
  | true =>
    have hm : strContains (pyLower e) "memory" = true :=
      strContains_lower_of_strContains (by decide) (by decide) hreq
    simp [hm]

/-- C1: when the chat call raises, the handler shows the RESOURCE banner
exactly when the diagnostic text contains `memory` or `out of memory`
case-insensitively, and otherwise shows the generic banner carrying the raw
text verbatim; the two banners are distinct constructors, so the outcomes
are mutually exclusive. -/
theorem submission_error_classification (e system_prompt known_problems
    fitness_goal : String) (user_age time_for_exercise max_history : Nat)
    (messages : List Message) :
    (send_handler system_prompt user_age known_problems time_for_exercise
        fitness_goal max_history (.resp 200) true (.raises e) messages).shown =
      some (if strContains (pyLower e) "memory"
              || strContains (pyLower e) "out of memory"
            then Shown.resourceError e else Shown.genericError e) ∧
    (∀ raw raw2 : String, Shown.resourceError raw ≠ Shown.genericError raw2) := by
  constructor
  · rw [← classify_error_eq_claim_condition]
    rfl
  · intro raw raw2 h
    cases h

/-- C2: evaluation of the code at the inputs that break the claim. A
fragment that is an object without a `message` attribute — and likewise a
dict fragment whose nested `content` is `None` — leaves `content_piece`
equal to `None` after the extraction block; the assignment raises nothing,
so the `try/except` does not intervene, and `assistant_text +=
content_piece` then raises `TypeError`. The loop aborts with zero per-chunk
updates instead of contributing an empty string. -/
theorem stream_extraction_raises_on_unextractable :
    extractPiece (Frag.obj none) = none ∧
    consumeStream [Frag.obj none] "" = ([], none) ∧
    extractPiece (Frag.dict (some (.dict (some .null)))) = none :=
  ⟨rfl, rfl, rfl⟩

/-- Counterexample to C4 as stated: on the fragment sequence
`[{'message': {'content': None}}]` the accumulation loop raises, so the
live-view update runs zero times (not once per fragment) and no assistant
message is appended. -/
theorem stream_snapshots_counterexample :
    consumeStream [Frag.dict (some (.dict (some .null)))] "" = ([], none) ∧
    (send_handler "" 30 "" 45 "Lose weight" 10 (.resp 200) true
        (.stream [Frag.dict (some (.dict (some .null)))]) []).updates = [] ∧
    (send_handler "" 30 "" 45 "Lose weight" 10 (.resp 200) true
        (.stream [Frag.dict (some (.dict (some .null)))]) []).raised = true ∧
    (send_handler "" 30 "" 45 "Lose weight" 10 (.resp 200) true
        (.stream [Frag.dict (some (.dict (some .null)))]) []).messages
      = [⟨"user", plan_request 30 "" 45 "Lose weight"⟩] :=
  ⟨rfl, rfl, rfl, by rfl⟩

theorem consumeStream_ok (frags : List Frag) (buf : String)
    (h : ∀ f ∈ frags, (extractPiece f).isSome = true) :
    consumeStream frags buf =
      (cumSnapshots buf (frags.filterMap extractPiece),
       some ((frags.filterMap extractPiece).foldl (· ++ ·) buf)) := by
  induction frags generalizing buf with
  | nil => rfl
  | cons f fs ih =>
    obtain ⟨p, hp⟩ := Option.isSome_iff_exists.mp (h f (by simp))
    have hfs : ∀ x ∈ fs, (extractPiece x).isSome = true :=
      fun x hx => h x (by simp [hx])
    simp [consumeStream, hp, List.filterMap_cons, ih (buf ++ p) hfs, cumSnapshots]

theorem cumSnapshots_length (buf : String) (ps : List String) :
    (cumSnapshots buf ps).length = ps.length := by
  induction ps generalizing buf with
  | nil => rfl
  | cons p ps ih => simp [cumSnapshots, ih]

theorem filterMap_extract_length (frags : List Frag)
    (h : ∀ f ∈ frags, (extractPiece f).isSome = true) :
    (frags.filterMap extractPiece).length = frags.length := by
  induction frags with
  | nil => rfl
  | cons f fs ih =>
    obtain ⟨p, hp⟩ := Option.isSome_iff_exists.mp (h f (by simp))
    simp [List.filterMap_cons, hp, ih fun x hx => h x (by simp [hx])]

/-- C4 as amended: for every finite fragment sequence in which each
fragment's content extraction succeeds (yields a string, possibly empty),
the handler invokes the live-view update exactly once per fragment with the
cumulative buffer snapshot, and on completion appends exactly one assistant
message — after the single user message of the submission — whose content
is the concatenation of the extracted contents in arrival order. -/
theorem stream_snapshots_and_single_append (frags : List Frag)
    (system_prompt known_problems fitness_goal : String)
    (user_age time_for_exercise max_history : Nat) (messages : List Message)
    (h : ∀ f ∈ frags, (extractPiece f).isSome = true) :
    (send_handler system_prompt user_age known_problems time_for_exercise
        fitness_goal max_history (.resp 200) true (.stream frags) messages).updates
      = cumSnapshots "" (frags.filterMap extractPiece) ∧
    (send_handler system_prompt user_age known_problems time_for_exercise
        fitness_goal max_history (.resp 200) true (.stream frags) messages).updates.length
      = frags.length ∧
    (send_handler system_prompt user_age known_problems time_for_exercise
        fitness_goal max_history (.resp 200) true (.stream frags) messages).messages
      = (if pyStrip system_prompt ≠ "" then
           messages ++ [⟨"system", pyStrip system_prompt⟩]
         else messages)
        ++ [⟨"user", plan_request user_age known_problems time_for_exercise fitness_goal⟩,
            ⟨"assistant", concatPieces (frags.filterMap extractPiece)⟩] ∧
    (send_handler system_prompt user_age known_problems time_for_exercise
        fitness_goal max_history (.resp 200) true (.stream frags) messages).raised
      = false := by
  have hc := consumeStream_ok frags "" h
  refine ⟨?_, ?_, ?_, ?_⟩
  · simp only [send_handler, check_ollama_host, hc]
    simp
  · simp only [send_handler, check_ollama_host, hc]
    simp [cumSnapshots_length, filterMap_extract_length frags h]
  · simp only [send_handler, check_ollama_host, hc, concatPieces]
    simp
  · simp only [send_handler, check_ollama_host, hc]
    simp

theorem stream_snapshots_witness :
    (∀ f ∈ [Frag.dict (some (.dict (some (.str "Hel")))),
            Frag.dict (some (.dict (some (.str "lo")))),
            Frag.dict none], (extractPiece f).isSome = true) ∧
    (send_handler "" 30 "" 45 "Lose weight" 10 (.resp 200) true
        (.stream [Frag.dict (some (.dict (some (.str "Hel")))),
                  Frag.dict (some (.dict (some (.str "lo")))),
                  Frag.dict none]) []).updates = ["Hel", "Hello", "Hello"] ∧
    (send_handler "" 30 "" 45 "Lose weight" 10 (.resp 200) true
        (.stream [Frag.dict (some (.dict (some (.str "Hel")))),
                  Frag.dict (some (.dict (some (.str "lo")))),
                  Frag.dict none]) []).messages
      = [⟨"user", plan_request 30 "" 45 "Lose weight"⟩, ⟨"assistant", "Hello"⟩] := by
  have h := stream_snapshots_and_single_append
    [Frag.dict (some (.dict (some (.str "Hel")))),
     Frag.dict (some (.dict (some (.str "lo")))),
     Frag.dict none] "" "" "Lose weight" 30 45 10 [] (by decide)
  exact ⟨by decide, h.1.trans rfl, h.2.2.1.trans rfl⟩

/-- C6: when the reachability check fails during a plan submission, the
handler stops before any chat request: no request messages are issued, the
failure diagnostic is shown, the conversation gains only the optional
system message and the user message, and that user message remains present;
no assistant message is appended. -/
theorem connectivity_gate (system_prompt known_problems fitness_goal : String)
    (user_age time_for_exercise max_history : Nat) (messages : List Message)
    (hostOut : GetOutcome) (diag : String) (clientOk : Bool) (chatOut : ChatOutcome)
    (h : check_ollama_host hostOut = (false, diag)) :
    (send_handler system_prompt user_age known_problems time_for_exercise
        fitness_goal max_history hostOut clientOk chatOut messages).requestMessages
      = none ∧
    (send_handler system_prompt user_age known_problems time_for_exercise
        fitness_goal max_history hostOut clientOk chatOut messages).shown
      = some (.hostCheckFailed diag) ∧
    (send_handler system_prompt user_age known_problems time_for_exercise
        fitness_goal max_history hostOut clientOk chatOut messages).messages
      = (if pyStrip system_prompt ≠ "" then
           messages ++ [⟨"system", pyStrip system_prompt⟩]
         else messages)
        ++ [⟨"user", plan_request user_age known_problems time_for_exercise fitness_goal⟩] ∧
    Message.mk "user" (plan_request user_age known_problems time_for_exercise fitness_goal)
      ∈ (send_handler system_prompt user_age known_problems time_for_exercise
          fitness_goal max_history hostOut clientOk chatOut messages).messages := by
  refine ⟨?_, ?_, ?_, ?_⟩ <;> simp only [send_handler, h] <;> simp

theorem connectivity_gate_witness :
    (send_handler "" 30 "" 45 "Lose weight" 10 .connError true (.stream []) []).requestMessages
      = none ∧
    Message.mk "user" (plan_request 30 "" 45 "Lose weight")
      ∈ (send_handler "" 30 "" 45 "Lose weight" 10 .connError true (.stream []) []).messages := by
  have h := connectivity_gate "" "" "Lose weight" 30 45 10 [] .connError
    "Connection refused — is Ollama running? Try `ollama serve`" true (.stream []) rfl
  exact ⟨h.1, h.2.2.2⟩
